import Mathlib

/-
Verification development for the mcp-alchemy connection lifecycle manager.

Shallow embedding of `src/auth/tokens.py` (AzureTokenCache) and
`src/mcp_alchemy/models.py` (QueryResult, DatabaseConfig, DatabaseManager).
Pure Python functions become Lean functions; stateful methods become explicit
state-passing functions; calls into the external SQLAlchemy driver and the
Azure credential provider are modelled by explicit environment parameters
describing the collaborator's behaviour.  Python exceptions and `sys.exit`
become explicit result constructors.
-/

set_option maxHeartbeats 1000000
set_option maxRecDepth 4000

/-! ## Python string primitives, modelled on the character-list level -/

/-- Does the needle match at the head of the haystack?  (Helper for Python's
substring test and `str.replace`.) -/
def charsMatchHere : List Char → List Char → Bool
  | [], _ => true
  | _ :: _, [] => false
  | a :: as, b :: bs => a == b && charsMatchHere as bs

/-- Does the haystack contain the needle as a contiguous substring? -/
def charsHaveSub (needle : List Char) : List Char → Bool
  | [] => charsMatchHere needle []
  | b :: bs => charsMatchHere needle (b :: bs) || charsHaveSub needle bs

/-- Python's `needle in hay` on strings. -/
def pyIn (needle hay : String) : Bool :=
  charsHaveSub needle.data hay.data

/-- Python's `hay.startswith(pat)`. -/
def pyStartsWith (hay pat : String) : Bool :=
  charsMatchHere pat.data hay.data

/-- Python's `hay.endswith(pat)`. -/
def pyEndsWith (hay pat : String) : Bool :=
  charsMatchHere pat.data.reverse hay.data.reverse

/-- Python's `s.lower()` (ASCII case folding, as `Char.toLower`). -/
def pyLower (s : String) : String :=
  ⟨s.data.map Char.toLower⟩

/-- Python's slice `s[3:-4]`: drop the first three characters, then drop the
last four (empty when fewer than seven characters remain overall). -/
def pySlice3toNeg4 (s : String) : String :=
  ⟨(s.data.drop 3).take ((s.data.drop 3).length - 4)⟩

/-- Left-to-right, non-overlapping replacement of a nonempty pattern,
as Python's `str.replace` (an empty pattern is never used by this code). -/
def replaceAux (pat rep : List Char) : List Char → List Char
  | [] => []
  | c :: cs =>
    if pat ≠ [] ∧ charsMatchHere pat (c :: cs) = true then
      rep ++ replaceAux pat rep (List.drop (pat.length - 1) cs)
    else
      c :: replaceAux pat rep cs
termination_by l => l.length
decreasing_by
  · simp only [List.length_drop, List.length_cons]
    omega
  · simp only [List.length_cons]
    omega

/-- Python's `s.replace(pat, rep)`. -/
def pyReplace (s pat rep : String) : String :=
  ⟨replaceAux pat.data rep.data s.data⟩

/-- Python's `sep.join(parts)`. -/
def pyJoin (sep : String) : List String → String
  | [] => ""
  | [x] => x
  | x :: xs => x ++ sep ++ pyJoin sep xs

/-- Python truthiness of `Optional[str]`: `None` and the empty string are falsy. -/
def pyFalsyStr : Option String → Bool
  | none => true
  | some s => s == ""

/-- Python truthiness of `Optional[int]` (for a row-count maximum):
`None` and `0` are falsy. -/
def pyTruthyNat : Option Nat → Bool
  | none => false
  | some n => n != 0

/-- The boolean-literal test of `models.py`:
`value.lower() in ('true', '1', 'yes', 'on')`. -/
def pyBoolLit (s : String) : Bool :=
  let l := pyLower s
  l == "true" || l == "1" || l == "yes" || l == "on"

/-! ## Row values and their textual rendering -/

/-- A database field value as it sits in a result row: null, text, integer,
or a temporal (date) value. -/
inductive Value
  | vNull
  | vStr (s : String)
  | vInt (n : Int)
  | vDate (y m d : Nat)
deriving DecidableEq, Repr, BEq

/-- Zero-pad a natural number to two digits. -/
def pad2 (n : Nat) : String :=
  if n < 10 then "0" ++ toString n else toString n

/-- Zero-pad a natural number to four digits. -/
def pad4 (n : Nat) : String :=
  if n < 10 then "000" ++ toString n
  else if n < 100 then "00" ++ toString n
  else if n < 1000 then "0" ++ toString n
  else toString n

/-- Canonical ISO date text `YYYY-MM-DD`. -/
def isoDate (y m d : Nat) : String :=
  pad4 y ++ "-" ++ pad2 m ++ "-" ++ pad2 d

/-- Modelled from the spec: the JSON rendering of row values is performed by
the pydantic serialization layer, which is not part of the sources under
`src/`.  Per the spec, null values render as the explicit marker `null`
(never as an empty string), strings render as quoted text, and temporal
values render as their canonical ISO textual form. -/
def renderValue : Value → String
  | Value.vNull => "null"
  | Value.vStr s => "\"" ++ s ++ "\""
  | Value.vInt n => toString n
  | Value.vDate y m d => "\"" ++ isoDate y m d ++ "\""

/-! ## QueryResult (`models.py`) -/

/-- `QueryResult` of `models.py`: columns, row data, the total row count
reported by the database, and the truncation flag. -/
structure QueryResult where
  columns : List String
  rows : List (List Value)
  database_row_count : Nat
  truncated : Bool
deriving DecidableEq, Repr

/-- The computed field `returned_row_count`: the number of rows included
in the response, `len(self.rows)`. -/
def QueryResult.returned_row_count (q : QueryResult) : Nat :=
  q.rows.length

/-- `QueryResult.from_sqlalchemy_result`: collect all rows (counting them),
then truncate to the first `max_rows` rows when `max_rows` is truthy
(`not None` and nonzero) and the total count exceeds it.
`max_rows` is modelled as `Option Nat` (`None` or a row-count maximum). -/
def QueryResult.from_sqlalchemy_result (columns : List String)
    (resultRows : List (List Value)) (max_rows : Option Nat) : QueryResult :=
  let database_row_count := resultRows.length
  let inst : QueryResult :=
    { columns := columns, rows := resultRows,
      database_row_count := database_row_count, truncated := false }
  if pyTruthyNat max_rows = true ∧ database_row_count > max_rows.getD 0 then
    { inst with truncated := true, rows := inst.rows.take (max_rows.getD 0) }
  else
    inst

/-! ## AzureTokenCache (`auth/tokens.py`) -/

/-- The mutable state of `AzureTokenCache`: the cached token (a Python
`Optional[str]`) and its absolute expiry instant (`Optional[datetime]`,
modelled in minutes as `Option Int`).  The mutual-exclusion lock serialises
calls; each call is modelled as one atomic step. -/
structure AzureTokenCache where
  _token : Option String
  _expiration : Option Int
deriving DecidableEq, Repr

/-- One `get_token()` call at instant `now`, where `fetched` is the token the
external credential provider would return if asked.  Returns the new cache
state, the returned token string, and whether a provider fetch occurred.
Mirrors: fetch when `not self._token or not self._expiration or
(self._expiration - now) < timedelta(minutes=5)`; on fetch the new expiry is
`now + timedelta(minutes=55)`. -/
def AzureTokenCache.get_token (c : AzureTokenCache) (now : Int)
    (fetched : String) : AzureTokenCache × String × Bool :=
  if pyFalsyStr c._token = true ∨ c._expiration = none ∨
      c._expiration.getD 0 - now < 5 then
    (⟨some fetched, some (now + 55)⟩, fetched, true)
  else
    (c, c._token.getD "", false)

/-- Run a sequence of `get_token()` calls, each given as (instant, token the
provider would return); result is the final cache state and the number of
provider fetches performed. -/
def runCalls : AzureTokenCache → List (Int × String) → AzureTokenCache × Nat
  | c, [] => (c, 0)
  | c, (t, f) :: rest =>
    let r := c.get_token t f
    let res := runCalls r.1 rest
    (res.1, (if r.2.2 then 1 else 0) + res.2)

/-! ## DatabaseConfig (`models.py`) -/

/-- An engine handle as far as this layer observes it: the resolved URL it
was created with (`str(engine.url)` is consulted by the read-only branch). -/
structure Engine where
  url : String
deriving DecidableEq, Repr

/-- `DatabaseConfig` of `models.py`. -/
structure DatabaseConfig where
  name : String
  url : String
  description : String := ""
  available : Bool := true
  read_only : Bool := false
  engine : Option Engine := none
deriving DecidableEq, Repr

/-- `get_resolved_url`: replace the literal `AZURE_TOKEN` placeholder with a
live token when present; `tok` is the value `token_cache.get_token()` would
return. -/
def DatabaseConfig.get_resolved_url (c : DatabaseConfig) (tok : String) : String :=
  if pyIn "AZURE_TOKEN" c.url then pyReplace c.url "AZURE_TOKEN" tok
  else c.url

/-- `create_engine_for_config`: create an engine over the resolved URL.  The
fixed option set (autocommit isolation, pre-ping, pool size 1, overflow 2,
recycle 3600, overridable via `DB_ENGINE_OPTIONS`) is configuration handed to
the external driver and carries no state observed by this layer. -/
def create_engine_for_config (c : DatabaseConfig) (tok : String) : Engine :=
  Engine.mk (c.get_resolved_url tok)

/-- The engine `get_engine` hands back: the cached handle when one exists,
otherwise a freshly created one. -/
def DatabaseConfig.engineFor (c : DatabaseConfig) (tok : String) : Engine :=
  match c.engine with
  | some e => e
  | none => create_engine_for_config c tok

/-- `get_engine`: return the cached engine, creating and caching it first if
none exists. -/
def DatabaseConfig.get_engine (c : DatabaseConfig) (tok : String) :
    DatabaseConfig × Engine :=
  ({ c with engine := some (c.engineFor tok) }, c.engineFor tok)

/-- `mark_unavailable`: set `available = False`, best-effort dispose the
engine (disposal outcome discarded), and clear the handle. -/
def DatabaseConfig.mark_unavailable (c : DatabaseConfig) : DatabaseConfig :=
  { c with available := false, engine := none }

/-- Behaviour of the external driver and credential provider during one
`connection()` call: the token the cache would return, whether the n-th
`engine.connect()` attempt succeeds, and whether the session-tagging and
read-only statements succeed. -/
structure DriverEnv where
  token : String
  connectOkAt : Nat → Bool
  tagOk : Bool
  pgReadOnlyOk : Bool
  genericReadOnlyOk : Bool

/-- Outcome of a `connection()` call: the `ValueError` for an unavailable
database, a propagated connect exception, the `sys.exit(1)` abort, or a
yielded connection. -/
inductive ConnResult
  | unavailableError (dbname : String)
  | connectError
  | fatalExit (code : Nat)
  | yielded (conn : Engine)
deriving DecidableEq, Repr, BEq

/-- Externally visible events of one `connection()` call, in order. -/
inductive ConnEvent
  | engineCreated
  | connectAttempted
  | tagAttempted
  | readOnlyAttempted
deriving DecidableEq, Repr, BEq

/-- `DatabaseConfig.connection`: fail with the unavailable error when
`available` is false; otherwise obtain/create the engine, attempt to connect
(the code makes a single attempt, consulting `env.connectOkAt 0`; a failure
propagates), tag the session (outcome discarded, `try/except pass`), and for
a read-only config run the enforcement statement (the PostgreSQL statement
when `'postgresql' in str(engine.url)`, the generic one otherwise); an
enforcement failure is `sys.exit(1)`.  Returns the final config state, the
outcome, and the trace of events. -/
def DatabaseConfig.connection (c : DatabaseConfig) (env : DriverEnv) :
    DatabaseConfig × ConnResult × List ConnEvent :=
  if c.available = false then
    (c, ConnResult.unavailableError c.name, [])
  else
    let e := c.engineFor env.token
    let createEvents : List ConnEvent :=
      match c.engine with
      | none => [ConnEvent.engineCreated]
      | some _ => []
    let c1 := { c with engine := some e }
    if env.connectOkAt 0 = false then
      (c1, ConnResult.connectError, createEvents ++ [ConnEvent.connectAttempted])
    else
      let _ := env.tagOk
      let events := createEvents ++ [ConnEvent.connectAttempted, ConnEvent.tagAttempted]
      if c1.read_only then
        let events := events ++ [ConnEvent.readOnlyAttempted]
        if (if pyIn "postgresql" e.url then env.pgReadOnlyOk else env.genericReadOnlyOk) then
          (c1, ConnResult.yielded e, events)
        else
          (c1, ConnResult.fatalExit 1, events)
      else
        (c1, ConnResult.yielded e, events)

/-- `to_description_text`: the name, followed when present by the description
and the `read-only` annotation in parentheses. -/
def DatabaseConfig.to_description_text (c : DatabaseConfig) : String :=
  let desc_parts : List String :=
    (if c.description ≠ "" then [c.description] else []) ++
      (if c.read_only = true then ["read-only"] else [])
  let desc := if desc_parts ≠ [] then " (" ++ pyJoin ", " desc_parts ++ ")" else ""
  c.name ++ desc

/-! ## Operation sequences over one config -/

/-- The operations of `models.py` that touch a `DatabaseConfig`'s mutable
state (`get_resolved_url` and `to_description_text` are pure; the manager's
operations delegate to these). -/
inductive Op
  | markUnavailable
  | getEngine (tok : String)
  | connect (env : DriverEnv)

/-- Apply one operation to a config, keeping the post-state. -/
def applyOp (c : DatabaseConfig) : Op → DatabaseConfig
  | Op.markUnavailable => c.mark_unavailable
  | Op.getEngine tok => (c.get_engine tok).1
  | Op.connect env => (c.connection env).1

/-- Apply a sequence of operations in order. -/
def applyOps (c : DatabaseConfig) (ops : List Op) : DatabaseConfig :=
  ops.foldl applyOp c

/-! ## DatabaseManager (`models.py`) -/

/-- `DatabaseManager`: the mapping from lower-cased name to config, modelled
as an insertion-ordered association list (as a Python `dict` is). -/
structure DatabaseManager where
  databases : List (String × DatabaseConfig)
deriving DecidableEq, Repr

/-- Result of `get_database`: the config, or the `ValueError` for a name that
is not configured. -/
inductive GetDatabaseResult
  | ok (c : DatabaseConfig)
  | notConfiguredError (name : String)
deriving DecidableEq, Repr

/-- `get_database`: case-insensitive lookup, `ValueError` when absent. -/
def DatabaseManager.get_database (m : DatabaseManager) (name : String) :
    GetDatabaseResult :=
  let key := pyLower name
  match m.databases.find? (fun p => p.1 == key) with
  | none => GetDatabaseResult.notConfiguredError key
  | some p => GetDatabaseResult.ok p.2

/-- `get_available_databases`: the names of the configs whose `available`
flag is true, in insertion order. -/
def DatabaseManager.get_available_databases (m : DatabaseManager) : List String :=
  ((m.databases.map Prod.snd).filter (fun c => c.available)).map
    (fun c => c.name)

/-- `get_available_databases_text`: the same list joined with newlines. -/
def DatabaseManager.get_available_databases_text (m : DatabaseManager) : String :=
  pyJoin "\n" m.get_available_databases

/-- Does an environment key name a database URL entry
(`key.startswith('DB_') and key.endswith('_URL')`)? -/
def urlPatternKey (k : String) : Bool :=
  pyStartsWith k "DB_" && pyEndsWith k "_URL"

/-- The database name an environment key folds to:
`key[3:-4].lower()`. -/
def db_name_of (key : String) : String :=
  pyLower (pySlice3toNeg4 key)

/-- The case-folded names of the URL entries of an environment, in order. -/
def foldedNames (env : List (String × String)) : List String :=
  ((env.map Prod.fst).filter urlPatternKey).map db_name_of

/-- `os.environ.get(k)`: first binding of a key in the environment. -/
def lookupEnv (env : List (String × String)) (k : String) : Option String :=
  (env.find? (fun p => p.1 == k)).map Prod.snd

/-- Result of the environment scan of `from_environment`: the accumulated
configs, or the `sys.exit(1)` on the first duplicate name. -/
inductive BuildResult
  | ok (dbs : List (String × DatabaseConfig))
  | duplicate (name : String)
deriving DecidableEq, Repr

/-- The `for key, value in os.environ.items()` loop of `from_environment`:
for each `DB_*_URL` entry derive the folded name, `sys.exit(1)` on a
duplicate, otherwise look up the optional description and read-only entries
and append the config. -/
def buildDatabases (env : List (String × String)) :
    List (String × String) → List (String × DatabaseConfig) → BuildResult
  | [], dbs => BuildResult.ok dbs
  | (key, value) :: rest, dbs =>
    if urlPatternKey key then
      let db_name_part := pySlice3toNeg4 key
      let db_name := db_name_of key
      if (dbs.find? (fun p => p.1 == db_name)).isSome then
        BuildResult.duplicate db_name
      else
        let description := (lookupEnv env ("DB_" ++ db_name_part ++ "_DESC")).getD ""
        let read_only :=
          pyBoolLit ((lookupEnv env ("DB_" ++ db_name_part ++ "_READ_ONLY")).getD "")
        buildDatabases env rest
          (dbs ++ [(db_name,
            { name := db_name, url := value, description := description,
              available := true, read_only := read_only, engine := none })])
    else
      buildDatabases env rest dbs

/-- Result of `DatabaseManager.from_environment`: a manager, or one of the
two `sys.exit(1)` configuration aborts. -/
inductive FromEnvResult
  | ok (m : DatabaseManager)
  | exitDuplicate (name : String)
  | exitNoConfig
deriving DecidableEq, Repr

/-- Is the construction outcome a process-terminating configuration error? -/
def FromEnvResult.isExit : FromEnvResult → Bool
  | FromEnvResult.ok _ => false
  | FromEnvResult.exitDuplicate _ => true
  | FromEnvResult.exitNoConfig => true

/-- The manager of a successful construction (dummy empty manager otherwise). -/
def FromEnvResult.getOk : FromEnvResult → DatabaseManager
  | FromEnvResult.ok m => m
  | FromEnvResult.exitDuplicate _ => DatabaseManager.mk []
  | FromEnvResult.exitNoConfig => DatabaseManager.mk []

/-- `DatabaseManager.from_environment`: scan the environment for `DB_*_URL`
entries; when none were found fall back to a single `default` database from
`DB_URL`, and `sys.exit(1)` when that is absent too. -/
def DatabaseManager.from_environment (env : List (String × String)) :
    FromEnvResult :=
  match buildDatabases env env [] with
  | BuildResult.duplicate n => FromEnvResult.exitDuplicate n
  | BuildResult.ok dbs =>
    if dbs.isEmpty then
      match lookupEnv env "DB_URL" with
      | some url =>
        let read_only := pyBoolLit ((lookupEnv env "DB_READ_ONLY").getD "")
        FromEnvResult.ok ⟨[("default",
          { name := "default", url := url, description := "Default database",
            available := true, read_only := read_only, engine := none })]⟩
      | none => FromEnvResult.exitNoConfig
    else
      FromEnvResult.ok ⟨dbs⟩

/-! ## Concrete sample data used by witnesses and counterexamples -/

/-- A driver behaviour whose first `connect()` attempt fails and whose later
attempts would succeed. -/
def envFailThenOk : DriverEnv :=
  { token := "", connectOkAt := fun n => n != 0, tagOk := true,
    pgReadOnlyOk := true, genericReadOnlyOk := true }

/-- A driver behaviour where everything succeeds. -/
def envAllOk : DriverEnv :=
  { token := "", connectOkAt := fun _ => true, tagOk := true,
    pgReadOnlyOk := true, genericReadOnlyOk := true }

/-- A driver behaviour where the read-only enforcement statements fail. -/
def envReadOnlyFails : DriverEnv :=
  { token := "", connectOkAt := fun _ => true, tagOk := true,
    pgReadOnlyOk := false, genericReadOnlyOk := false }

/-- A fresh available config. -/
def cAvail : DatabaseConfig :=
  { name := "db1", url := "postgresql:u", description := "",
    available := true, read_only := false, engine := none }

/-- A read-only PostgreSQL config. -/
def cReadOnly : DatabaseConfig :=
  { name := "db2", url := "postgresql:v", description := "",
    available := true, read_only := true, engine := none }

/-- An unavailable config. -/
def cUnavail : DatabaseConfig :=
  { name := "db3", url := "sqlite:w", description := "",
    available := false, read_only := false, engine := none }

/-- A manager with one available config carrying a description and the
read-only flag. -/
def mgrOne : DatabaseManager :=
  ⟨[("x", { name := "x", url := "u", description := "d",
            available := true, read_only := true, engine := none })]⟩

/-- A two-entry environment with mixed-case key parts. -/
def envTwo : List (String × String) :=
  [("DB_Main_URL", "u1"), ("DB_OTHER_URL", "u2")]

/-- An environment whose two URL keys fold to the same database name. -/
def envDup : List (String × String) :=
  [("DB_A_URL", "u1"), ("DB_a_URL", "u2")]

/-! ## Helper lemmas -/

theorem strLengthAppend (a b : String) : (a ++ b).length = a.length + b.length := by
  cases a with
  | mk da =>
    cases b with
    | mk db =>
      simp [String.length, String.instAppend, String.append]

theorem renderDate_length (y m d : Nat) :
    (renderValue (Value.vDate y m d)).length = (isoDate y m d).length + 2 := by
  show (("\"" ++ isoDate y m d) ++ "\"").length = (isoDate y m d).length + 2
  have h1 : ("\"" : String).length = 1 := rfl
  simp only [strLengthAppend, h1]
  omega

theorem isoDate_length (y m d : Nat) : 2 ≤ (isoDate y m d).length := by
  have h1 : ("-" : String).length = 1 := rfl
  unfold isoDate
  simp only [strLengthAppend, h1]
  omega

theorem applyOp_preserves_unavailable (c : DatabaseConfig) (op : Op)
    (h : c.available = false) : (applyOp c op).available = false := by
  cases op with
  | markUnavailable => simp [applyOp, DatabaseConfig.mark_unavailable]
  | getEngine tok => simp [applyOp, DatabaseConfig.get_engine, h]
  | connect env => simp [applyOp, DatabaseConfig.connection, h]

theorem runCalls_no_fetch (tok : String) (e : Int) (htok : tok ≠ "")
    (calls : List (Int × String)) (h : ∀ p ∈ calls, p.1 ≤ e - 5) :
    runCalls ⟨some tok, some e⟩ calls = (⟨some tok, some e⟩, 0) := by
  induction calls with
  | nil => rfl
  | cons p rest ih =>
    obtain ⟨t, f⟩ := p
    have h1 := h (t, f) (List.mem_cons_self _ _)
    have hcond : ¬ (pyFalsyStr (some tok) = true ∨ (some e : Option Int) = none ∨
        (some e : Option Int).getD 0 - t < 5) := by
      push_neg
      refine ⟨?_, ?_, ?_⟩
      · simp [pyFalsyStr, htok]
      · simp
      · simp only [Option.getD_some]
        omega
    have hstep : AzureTokenCache.get_token ⟨some tok, some e⟩ t f
        = (⟨some tok, some e⟩, tok, false) := by
      rw [AzureTokenCache.get_token, if_neg hcond]
      simp
    have hrest := ih (fun q hq => h q (List.mem_cons_of_mem _ hq))
    simp [runCalls, hstep, hrest]

/-! ## C5: unavailable configs fail immediately -/

/-- C5: for every `DatabaseConfig` with `available == false`, `connect()`
fails immediately with an unavailable error, before any engine creation or
connection attempt: the config is unchanged, the event trace is empty (no
network call), and no connection is yielded. -/
theorem connection_unavailable_fails_immediately (c : DatabaseConfig)
    (env : DriverEnv) (h : c.available = false) :
    c.connection env = (c, ConnResult.unavailableError c.name, []) := by
  simp [DatabaseConfig.connection, h]

/-- Witness for C5 at a concrete unavailable config. -/
theorem connection_unavailable_fails_immediately_witness :
    cUnavail.available = false ∧
    cUnavail.connection envAllOk = (cUnavail, ConnResult.unavailableError "db3", []) :=
  ⟨rfl, connection_unavailable_fails_immediately cUnavail envAllOk rfl⟩

/-! ## C4: read-only enforcement failure is process-fatal -/

/-- C4: for every connection acquisition on a config with `read_only == true`,
if the read-only enforcement statement fails, the call ends in `sys.exit(1)`
(the whole process terminates); no connection is yielded and the failure is
never surfaced as a per-request error result. -/
theorem read_only_enforcement_failure_fatal (c : DatabaseConfig)
    (env : DriverEnv) (hav : c.available = true) (hro : c.read_only = true)
    (hconn : env.connectOkAt 0 = true)
    (henf : (if pyIn "postgresql" (c.engineFor env.token).url then env.pgReadOnlyOk
             else env.genericReadOnlyOk) = false) :
    (c.connection env).2.1 = ConnResult.fatalExit 1 := by
  simp [DatabaseConfig.connection, hav, hconn, hro, henf]

/-- Witness for C4: a read-only PostgreSQL config whose enforcement statement
fails ends in the process abort. -/
theorem read_only_enforcement_failure_fatal_witness :
    cReadOnly.read_only = true ∧
    (cReadOnly.connection envReadOnlyFails).2.1 = ConnResult.fatalExit 1 :=
  ⟨rfl, read_only_enforcement_failure_fatal cReadOnly envReadOnlyFails rfl rfl rfl
    (by decide)⟩

/-! ## C1: no retry on connection failure -/

/-- C1 (counterexample): at a concrete available config and a driver whose
first `connect()` attempt fails while every later attempt would succeed, the
code propagates the first error: the outcome is the connect error (not a
yielded connection as the claim states), exactly one connect attempt occurs
in the trace (not the two the claimed retry would produce), the config is
never marked unavailable, and the engine handle is set rather than cleared. -/
theorem connection_no_retry_counterexample :
    (cAvail.connection envFailThenOk).2.1 = ConnResult.connectError ∧
    ((cAvail.connection envFailThenOk).2.2).count ConnEvent.connectAttempted = 1 ∧
    (cAvail.connection envFailThenOk).1.available = true ∧
    (cAvail.connection envFailThenOk).1.engine = some (Engine.mk "postgresql:u") := by
  decide

/-- C1 (amended): for every available config, a failure of the (single)
connection attempt propagates to the caller unmodified: the outcome is the
connect error, the config stays available with its engine handle set (it is
not marked unavailable and the engine is not cleared), and exactly one
connect attempt is made — there is no retry. -/
theorem connection_single_failure_propagates (c : DatabaseConfig)
    (env : DriverEnv) (hav : c.available = true)
    (hfail : env.connectOkAt 0 = false) :
    (c.connection env).2.1 = ConnResult.connectError ∧
    (c.connection env).1.available = true ∧
    (c.connection env).1.engine = some (c.engineFor env.token) ∧
    ((c.connection env).2.2).count ConnEvent.connectAttempted = 1 := by
  cases hc : c.engine <;>
    simp [DatabaseConfig.connection, hav, hfail, hc, DatabaseConfig.engineFor,
      List.count_append, List.count_cons, List.count_nil] <;>
    decide

/-- Witness for C1's amended theorem at a concrete config and driver. -/
theorem connection_single_failure_propagates_witness :
    (cAvail.connection envFailThenOk).2.1 = ConnResult.connectError ∧
    (cAvail.connection envFailThenOk).1.available = true ∧
    (cAvail.connection envFailThenOk).1.engine
      = some (cAvail.engineFor envFailThenOk.token) ∧
    ((cAvail.connection envFailThenOk).2.2).count ConnEvent.connectAttempted = 1 :=
  connection_single_failure_propagates cAvail envFailThenOk rfl rfl

/-! ## C2: result truncation -/

/-- C2 (counterexample): with a configured maximum of `0` and one result row,
`database_row_count` (`1`) exceeds the maximum (`0`) yet `truncated` is
`false` — Python's `if max_rows and ...` treats a zero maximum as falsy and
skips truncation, so the claim fails for the configured maximum `0`. -/
theorem from_sqlalchemy_result_zero_max_counterexample :
    ¬ ((QueryResult.from_sqlalchemy_result [] [[Value.vNull]] (some 0)).database_row_count
          > 0 →
       (QueryResult.from_sqlalchemy_result [] [[Value.vNull]] (some 0)).truncated
          = true) := by
  decide

/-- C2 (amended): for every row sequence and every positive configured
maximum, the built `QueryResult` satisfies `returned_row_count == len(rows)`
and `database_row_count == ` the input row count; when the count exceeds the
maximum, `truncated == true` and `rows` holds exactly the first `max` input
rows; otherwise all rows are retained and `truncated == false`. -/
theorem from_sqlalchemy_result_truncation (cols : List String)
    (rows : List (List Value)) (m : Nat) (hm : 0 < m) :
    (QueryResult.from_sqlalchemy_result cols rows (some m)).returned_row_count
        = (QueryResult.from_sqlalchemy_result cols rows (some m)).rows.length ∧
    (QueryResult.from_sqlalchemy_result cols rows (some m)).database_row_count
        = rows.length ∧
    (rows.length > m →
      (QueryResult.from_sqlalchemy_result cols rows (some m)).truncated = true ∧
      (QueryResult.from_sqlalchemy_result cols rows (some m)).rows = rows.take m) ∧
    (rows.length ≤ m →
      (QueryResult.from_sqlalchemy_result cols rows (some m)).truncated = false ∧
      (QueryResult.from_sqlalchemy_result cols rows (some m)).rows = rows) := by
  have hm' : pyTruthyNat (some m) = true := by
    simp [pyTruthyNat]
    omega
  by_cases h : rows.length > m
  · simp [QueryResult.from_sqlalchemy_result, QueryResult.returned_row_count,
      hm', h]
  · simp [QueryResult.from_sqlalchemy_result, QueryResult.returned_row_count,
      hm', h]

/-- Witness for C2's amended theorem: three rows with maximum two truncate to
the first two rows. -/
theorem from_sqlalchemy_result_truncation_witness :
    (QueryResult.from_sqlalchemy_result []
        [[Value.vNull], [Value.vInt 1], [Value.vInt 2]] (some 2)).truncated = true ∧
    (QueryResult.from_sqlalchemy_result []
        [[Value.vNull], [Value.vInt 1], [Value.vInt 2]] (some 2)).rows
      = [[Value.vNull], [Value.vInt 1]] :=
  (from_sqlalchemy_result_truncation [] [[Value.vNull], [Value.vInt 1], [Value.vInt 2]]
    2 (by decide)).2.2.1 (by decide)

/-! ## C10: unavailability is permanent -/

/-- C10: once a config's `available` flag is false, no operation of the code
ever sets it back to true: after any sequence of the state-touching
operations (`mark_unavailable`, `get_engine`, `connection`) it remains
unavailable, and every subsequent `connect()` on it fails with the
unavailable error. -/
theorem unavailable_is_permanent (c : DatabaseConfig) (ops : List Op)
    (env : DriverEnv) (h : c.available = false) :
    (applyOps c ops).available = false ∧
    ((applyOps c ops).connection env).2.1
      = ConnResult.unavailableError (applyOps c ops).name := by
  have hav : (applyOps c ops).available = false := by
    induction ops generalizing c with
    | nil => exact h
    | cons op rest ih => exact ih (applyOp c op) (applyOp_preserves_unavailable c op h)
  exact ⟨hav, by simp [DatabaseConfig.connection, hav]⟩

/-- Witness for C10 at a concrete unavailable config and operation sequence. -/
theorem unavailable_is_permanent_witness :
    (applyOps cUnavail [Op.getEngine "t", Op.markUnavailable, Op.connect envAllOk]).available
      = false ∧
    ((applyOps cUnavail [Op.getEngine "t", Op.markUnavailable, Op.connect envAllOk]).connection
        envAllOk).2.1
      = ConnResult.unavailableError
          (applyOps cUnavail [Op.getEngine "t", Op.markUnavailable, Op.connect envAllOk]).name :=
  unavailable_is_permanent cUnavail [Op.getEngine "t", Op.markUnavailable, Op.connect envAllOk]
    envAllOk rfl

/-! ## C3: token-cache refresh policy -/

/-- C3 (counterexample): if the provider returns the empty string as a token,
`not self._token` is true on the next call, so a second fetch occurs ten
minutes after the first — within the 50-minute window in which the claim
asserts no second fetch happens. -/
theorem get_token_empty_token_counterexample :
    (AzureTokenCache.get_token ⟨none, none⟩ 0 "").2.2 = true ∧
    (runCalls (AzureTokenCache.get_token ⟨none, none⟩ 0 "").1 [(10, "t2")]).2 = 1 := by
  decide

/-- C3 (amended): a fresh token is fetched exactly when the cached token is
absent or empty, the cached expiry is absent, or the cached expiry minus the
current time is under 5 minutes; on fetch the new expiry is the call time
plus 55 minutes; consequently, after a first fetch that returned a nonempty
token, no further fetch occurs in any sequence of calls within a 50-minute
window of that fetch. -/
theorem get_token_refresh_policy (c : AzureTokenCache) (now : Int) (f : String)
    (t0 : Int) (tok : String) (calls : List (Int × String))
    (htok : tok ≠ "")
    (hcalls : ∀ p ∈ calls, t0 ≤ p.1 ∧ p.1 < t0 + 50) :
    ((c.get_token now f).2.2 = true ↔
      (pyFalsyStr c._token = true ∨ c._expiration = none ∨
        c._expiration.getD 0 - now < 5)) ∧
    ((c.get_token now f).2.2 = true →
      (c.get_token now f).1._expiration = some (now + 55)) ∧
    (AzureTokenCache.get_token ⟨none, none⟩ t0 tok).2.2 = true ∧
    runCalls (AzureTokenCache.get_token ⟨none, none⟩ t0 tok).1 calls
      = ((AzureTokenCache.get_token ⟨none, none⟩ t0 tok).1, 0) := by
  have hfirst : AzureTokenCache.get_token ⟨none, none⟩ t0 tok
      = (⟨some tok, some (t0 + 55)⟩, tok, true) := by
    rw [AzureTokenCache.get_token, if_pos]
    exact Or.inl (by simp [pyFalsyStr])
  refine ⟨?_, ?_, ?_, ?_⟩
  · by_cases hcond : (pyFalsyStr c._token = true ∨ c._expiration = none ∨
        c._expiration.getD 0 - now < 5)
    · simp [AzureTokenCache.get_token, if_pos hcond, hcond]
    · simp [AzureTokenCache.get_token, if_neg hcond, hcond]
  · intro hfetch
    by_cases hcond : (pyFalsyStr c._token = true ∨ c._expiration = none ∨
        c._expiration.getD 0 - now < 5)
    · simp [AzureTokenCache.get_token, if_pos hcond]
    · rw [AzureTokenCache.get_token, if_neg hcond] at hfetch
      simp at hfetch
  · rw [hfirst]
  · rw [hfirst]
    exact runCalls_no_fetch tok (t0 + 55) htok calls
      (fun p hp => by have := hcalls p hp; omega)

/-- Witness for C3's amended theorem: after a first fetch at minute 0
returning a nonempty token, calls at minutes 1 and 49 fetch nothing. -/
theorem get_token_refresh_policy_witness :
    runCalls (AzureTokenCache.get_token ⟨none, none⟩ 0 "tok").1 [(1, "a"), (49, "b")]
      = ((AzureTokenCache.get_token ⟨none, none⟩ 0 "tok").1, 0) :=
  (get_token_refresh_policy ⟨none, none⟩ 0 "x" 0 "tok" [(1, "a"), (49, "b")]
    (by decide) (by decide)).2.2.2

/-! ## C6: null and temporal rendering -/

/-- C6: values are stored verbatim in the rows of every `QueryResult` built by
`from_sqlalchemy_result`, and under the (spec-modelled) serialization layer a
null field renders as the explicit marker `null` — never as an empty string
and distinct from the rendering of an empty string — while a date field
renders as its canonical ISO text, likewise never empty and distinct from an
empty string's rendering. -/
theorem null_and_temporal_rendering (cols : List String)
    (rows : List (List Value)) (mr : Option Nat) :
    ∀ r ∈ (QueryResult.from_sqlalchemy_result cols rows mr).rows, ∀ v ∈ r,
      (v = Value.vNull →
        renderValue v = "null" ∧ renderValue v ≠ "" ∧
        renderValue v ≠ renderValue (Value.vStr "")) ∧
      (∀ y m d, v = Value.vDate y m d →
        renderValue v = "\"" ++ isoDate y m d ++ "\"" ∧ renderValue v ≠ "" ∧
        renderValue v ≠ renderValue (Value.vStr "")) := by
  intro r _ v _
  constructor
  · rintro rfl
    exact ⟨rfl, by decide, by decide⟩
  · rintro y m d rfl
    have hlen := renderDate_length y m d
    have hiso := isoDate_length y m d
    refine ⟨rfl, ?_, ?_⟩
    · intro hcontra
      have := congrArg String.length hcontra
      rw [hlen] at this
      have h0 : ("" : String).length = 0 := rfl
      omega
    · intro hcontra
      have := congrArg String.length hcontra
      rw [hlen] at this
      have h2 : (renderValue (Value.vStr "")).length = 2 := rfl
      omega

/-- Witness for C6 at a concrete result holding a null and a date value. -/
theorem null_and_temporal_rendering_witness :
    renderValue Value.vNull = "null" ∧ renderValue Value.vNull ≠ "" ∧
    renderValue Value.vNull ≠ renderValue (Value.vStr "") :=
  (null_and_temporal_rendering [] [[Value.vNull, Value.vDate 2024 1 5]] none
    [Value.vNull, Value.vDate 2024 1 5]
    (by simp [QueryResult.from_sqlalchemy_result, pyTruthyNat])
    Value.vNull (by simp)).1 rfl

/-! ## C7: listing available databases -/

/-- C7 (counterexample): at a concrete manager holding one available config
with a description and the read-only flag, the listing operation returns the
bare name, not the `to_description_text` rendering with description and
read-only annotation that the claim asserts. -/
theorem get_available_databases_no_description_counterexample :
    mgrOne.get_available_databases ≠
      ((mgrOne.databases.map Prod.snd).filter (fun c => c.available)).map
        DatabaseConfig.to_description_text := by
  decide

/-- C7 (amended): the listing operation returns exactly the names of the
configs whose `available` flag is true (bare names; the description and
read-only annotation of `to_description_text` are not part of the listing). -/
theorem get_available_databases_names (m : DatabaseManager) (n : String) :
    n ∈ m.get_available_databases ↔
      ∃ c ∈ m.databases.map Prod.snd, c.available = true ∧ c.name = n := by
  simp [DatabaseManager.get_available_databases, List.mem_filter, and_assoc]

/-- Witness for C7's amended theorem at a concrete manager. -/
theorem get_available_databases_names_witness :
    "x" ∈ mgrOne.get_available_databases :=
  (get_available_databases_names mgrOne "x").mpr
    ⟨{ name := "x", url := "u", description := "d", available := true,
       read_only := true, engine := none }, by simp [mgrOne], rfl, rfl⟩

/-! ## Environment-scan lemmas for C8 and C9 -/

theorem foldedNames_nil : foldedNames [] = [] := rfl

theorem foldedNames_cons (key value : String) (rest : List (String × String)) :
    foldedNames ((key, value) :: rest) =
      if urlPatternKey key then db_name_of key :: foldedNames rest
      else foldedNames rest := by
  by_cases hpat : urlPatternKey key = true
  · simp [foldedNames, List.filter_cons, hpat]
  · simp [foldedNames, List.filter_cons, hpat]

theorem find?_key_isSome (dbs : List (String × DatabaseConfig)) (k : String) :
    (dbs.find? (fun p => p.1 == k)).isSome = true ↔ k ∈ dbs.map Prod.fst := by
  rw [List.find?_isSome]
  constructor
  · rintro ⟨x, hx, hpx⟩
    exact List.mem_map.mpr ⟨x, hx, beq_iff_eq.mp hpx⟩
  · intro hk
    obtain ⟨x, hx, hfst⟩ := List.mem_map.mp hk
    exact ⟨x, hx, beq_iff_eq.mpr hfst⟩

theorem buildDatabases_spec (env : List (String × String))
    (items : List (String × String)) :
    ∀ dbs : List (String × DatabaseConfig),
      (dbs.map Prod.fst).Nodup → (∀ p ∈ dbs, p.2.name = p.1) →
      (∀ res, buildDatabases env items dbs = BuildResult.ok res →
        res.map Prod.fst = dbs.map Prod.fst ++ foldedNames items ∧
        (res.map Prod.fst).Nodup ∧ (∀ p ∈ res, p.2.name = p.1)) ∧
      (∀ n, buildDatabases env items dbs = BuildResult.duplicate n →
        ¬ (dbs.map Prod.fst ++ foldedNames items).Nodup) := by
  induction items with
  | nil =>
    intro dbs hnd hnames
    constructor
    · intro res hres
      rw [buildDatabases] at hres
      cases hres
      exact ⟨by simp [foldedNames_nil], hnd, hnames⟩
    · intro n hn
      rw [buildDatabases] at hn
      cases hn
  | cons kv rest ih =>
    obtain ⟨key, value⟩ := kv
    intro dbs hnd hnames
    by_cases hpat : urlPatternKey key = true
    · by_cases hdup : (dbs.find? (fun p => p.1 == db_name_of key)).isSome = true
      · -- duplicate branch: exit
        have hstep : buildDatabases env ((key, value) :: rest) dbs
            = BuildResult.duplicate (db_name_of key) := by
          simp only [buildDatabases]
          rw [if_pos hpat, if_pos hdup]
        have hmem : db_name_of key ∈ dbs.map Prod.fst :=
          (find?_key_isSome dbs (db_name_of key)).mp hdup
        constructor
        · intro res hres
          rw [hstep] at hres
          cases hres
        · intro n _
          rw [foldedNames_cons, if_pos hpat]
          rw [List.nodup_append]
          rintro ⟨-, -, hdisj⟩
          exact hdisj hmem (List.mem_cons_self _ _)
      · -- fresh name: recurse on the extended accumulator
        set cfg : DatabaseConfig :=
          { name := db_name_of key, url := value,
            description := (lookupEnv env ("DB_" ++ pySlice3toNeg4 key ++ "_DESC")).getD "",
            available := true,
            read_only := pyBoolLit
              ((lookupEnv env ("DB_" ++ pySlice3toNeg4 key ++ "_READ_ONLY")).getD ""),
            engine := none } with hcfg
        have hstep : buildDatabases env ((key, value) :: rest) dbs
            = buildDatabases env rest (dbs ++ [(db_name_of key, cfg)]) := by
          simp only [buildDatabases]
          rw [if_pos hpat, if_neg hdup, hcfg]
        have hnotmem : db_name_of key ∉ dbs.map Prod.fst := by
          intro hmem
          exact hdup ((find?_key_isSome dbs (db_name_of key)).mpr hmem)
        have hkeys' : (dbs ++ [(db_name_of key, cfg)]).map Prod.fst
            = dbs.map Prod.fst ++ [db_name_of key] := by
          simp
        have hnd' : ((dbs ++ [(db_name_of key, cfg)]).map Prod.fst).Nodup := by
          rw [hkeys', List.nodup_append]
          refine ⟨hnd, List.nodup_singleton _, ?_⟩
          intro a ha hb
          rw [List.mem_singleton] at hb
          subst hb
          exact hnotmem ha
        have hnames' : ∀ p ∈ dbs ++ [(db_name_of key, cfg)], p.2.name = p.1 := by
          intro p hp
          rcases List.mem_append.mp hp with h | h
          · exact hnames p h
          · rw [List.mem_singleton] at h
            subst h
            rfl
        obtain ⟨ihok, ihdup⟩ := ih (dbs ++ [(db_name_of key, cfg)]) hnd' hnames'
        have hlist : (dbs ++ [(db_name_of key, cfg)]).map Prod.fst ++ foldedNames rest
            = dbs.map Prod.fst ++ foldedNames ((key, value) :: rest) := by
          rw [hkeys', foldedNames_cons, if_pos hpat, List.append_assoc,
            List.singleton_append]
        constructor
        · intro res hres
          rw [hstep] at hres
          obtain ⟨h1, h2, h3⟩ := ihok res hres
          rw [hlist] at h1
          exact ⟨h1, h2, h3⟩
        · intro n hn
          rw [hstep] at hn
          have := ihdup n hn
          rw [hlist] at this
          exact this
    · -- key does not match the URL pattern: skipped
      have hstep : buildDatabases env ((key, value) :: rest) dbs
          = buildDatabases env rest dbs := by
        rw [buildDatabases, if_neg hpat]
      have hfn : foldedNames ((key, value) :: rest) = foldedNames rest := by
        rw [foldedNames_cons, if_neg hpat]
      obtain ⟨ihok, ihdup⟩ := ih dbs hnd hnames
      constructor
      · intro res hres
        rw [hstep] at hres
        rw [hfn]
        exact ihok res hres
      · intro n hn
        rw [hstep] at hn
        rw [hfn]
        exact ihdup n hn

/-! ## C8: construction validation -/

/-- C8: `from_environment` fails hard (a process-terminating exit) exactly
when two URL entries share the same case-folded name, or when there are zero
URL entries and no `DB_URL` fallback entry; every successful construction has
pairwise-distinct case-folded names as its keys. -/
theorem from_environment_validation (env : List (String × String)) :
    ((DatabaseManager.from_environment env).isExit = true ↔
      (¬ (foldedNames env).Nodup ∨
        (foldedNames env = [] ∧ lookupEnv env "DB_URL" = none))) ∧
    (∀ m, DatabaseManager.from_environment env = FromEnvResult.ok m →
      (m.databases.map Prod.fst).Nodup) := by
  obtain ⟨hok, hdup⟩ := buildDatabases_spec env env [] (by simp) (by simp)
  cases hbd : buildDatabases env env [] with
  | duplicate n =>
    have hnd : ¬ (foldedNames env).Nodup := by simpa using hdup n hbd
    constructor
    · constructor
      · intro _
        exact Or.inl hnd
      · intro _
        simp [DatabaseManager.from_environment, hbd, FromEnvResult.isExit]
    · intro m hm
      simp [DatabaseManager.from_environment, hbd] at hm
  | ok dbs =>
    obtain ⟨hkeys, hknd, hnames⟩ := hok dbs hbd
    simp only [List.map_nil, List.nil_append] at hkeys
    cases dbs with
    | nil =>
      have hfn : foldedNames env = [] := by simpa using hkeys.symm
      cases hlk : lookupEnv env "DB_URL" with
      | some url =>
        constructor
        · constructor
          · intro hexit
            simp [DatabaseManager.from_environment, hbd, hlk,
              FromEnvResult.isExit] at hexit
          · rintro (h | ⟨h1, h2⟩)
            · exact absurd (hfn ▸ List.nodup_nil) h
            · exact Option.noConfusion h2
        · intro m hm
          simp [DatabaseManager.from_environment, hbd, hlk] at hm
          subst hm
          simp
      | none =>
        constructor
        · constructor
          · intro _
            exact Or.inr ⟨hfn, rfl⟩
          · intro _
            simp [DatabaseManager.from_environment, hbd, hlk, FromEnvResult.isExit]
        · intro m hm
          simp [DatabaseManager.from_environment, hbd, hlk] at hm
    | cons d ds =>
      have hne : foldedNames env ≠ [] := by
        intro h
        rw [h] at hkeys
        simp at hkeys
      have hres : DatabaseManager.from_environment env = FromEnvResult.ok ⟨d :: ds⟩ := by
        simp [DatabaseManager.from_environment, hbd]
      constructor
      · rw [hres]
        constructor
        · intro hexit
          simp [FromEnvResult.isExit] at hexit
        · rintro (h | ⟨h1, h2⟩)
          · exact absurd (hkeys ▸ hknd) h
          · exact absurd h1 hne
      · intro m hm
        rw [hres] at hm
        cases hm
        exact hknd

/-- Witness for C8: an environment whose two URL keys fold to the same name
makes construction exit. -/
theorem from_environment_validation_witness :
    (DatabaseManager.from_environment envDup).isExit = true :=
  (from_environment_validation envDup).1.mpr (Or.inl (by decide))

/-! ## C9: round-trip of configured names -/

/-- C9: for every environment with pairwise-distinct case-folded URL-entry
names (and at least one entry), construction succeeds and exposes exactly
that many configs; for every case variant of a configured name,
`get_database` returns that name's config, and for every name that is not
configured it fails with the not-configured error. -/
theorem from_environment_get_database_roundtrip (env : List (String × String))
    (hnd : (foldedNames env).Nodup) (hne : foldedNames env ≠ []) :
    (DatabaseManager.from_environment env).isExit = false ∧
    (DatabaseManager.from_environment env).getOk.databases.length
      = (foldedNames env).length ∧
    (∀ v, pyLower v ∈ foldedNames env →
      ∃ c, (DatabaseManager.from_environment env).getOk.get_database v
            = GetDatabaseResult.ok c ∧ c.name = pyLower v ∧
          (pyLower v, c) ∈ (DatabaseManager.from_environment env).getOk.databases) ∧
    (∀ v, pyLower v ∉ foldedNames env →
      (DatabaseManager.from_environment env).getOk.get_database v
        = GetDatabaseResult.notConfiguredError (pyLower v)) := by
  obtain ⟨hok, hdup⟩ := buildDatabases_spec env env [] (by simp) (by simp)
  cases hbd : buildDatabases env env [] with
  | duplicate n =>
    exact absurd hnd (by simpa using hdup n hbd)
  | ok dbs =>
    obtain ⟨hkeys, hknd, hnames⟩ := hok dbs hbd
    simp only [List.map_nil, List.nil_append] at hkeys
    have hdne : dbs ≠ [] := by
      intro h
      rw [h] at hkeys
      simp at hkeys
      exact hne hkeys
    have hisem : dbs.isEmpty = false := by
      cases dbs with
      | nil => exact absurd rfl hdne
      | cons a l => rfl
    have hres : DatabaseManager.from_environment env = FromEnvResult.ok ⟨dbs⟩ := by
      simp [DatabaseManager.from_environment, hbd, hisem]
    rw [hres]
    refine ⟨rfl, ?_, ?_, ?_⟩
    · show dbs.length = (foldedNames env).length
      calc dbs.length = (dbs.map Prod.fst).length := (List.length_map _ _).symm
        _ = (foldedNames env).length := by rw [hkeys]
    · intro v hv
      rw [← hkeys] at hv
      have hsome := (find?_key_isSome dbs (pyLower v)).mpr hv
      obtain ⟨p, hp⟩ := Option.isSome_iff_exists.mp hsome
      have hpmem := List.mem_of_find?_eq_some hp
      have hpx := List.find?_some hp
      have hpkey : p.1 = pyLower v := by simpa using hpx
      refine ⟨p.2, ?_, ?_, ?_⟩
      · show DatabaseManager.get_database ⟨dbs⟩ v = GetDatabaseResult.ok p.2
        simp [DatabaseManager.get_database, hp]
      · rw [hnames p hpmem, hpkey]
      · show (pyLower v, p.2) ∈ dbs
        rw [← hpkey, Prod.mk.eta]
        exact hpmem
    · intro v hv
      rw [← hkeys] at hv
      have hnone : dbs.find? (fun p => p.1 == pyLower v) = none := by
        rw [List.find?_eq_none]
        intro x hx hbx
        exact hv (List.mem_map.mpr ⟨x, hx, beq_iff_eq.mp hbx⟩)
      show DatabaseManager.get_database ⟨dbs⟩ v
          = GetDatabaseResult.notConfiguredError (pyLower v)
      simp [DatabaseManager.get_database, hnone]

/-- Witness for C9: the two-entry environment builds a manager exposing
exactly two configs. -/
theorem from_environment_get_database_roundtrip_witness :
    (DatabaseManager.from_environment envTwo).getOk.databases.length
      = (foldedNames envTwo).length :=
  (from_environment_get_database_roundtrip envTwo (by decide) (by decide)).2.1
